import Mathlib

/-!
Shallow embedding of the MyAyurHealth Ayurveda expert system (src/app.py):
the retrieval gateway (VectorDBService), the intent router and composer
(AyurvedaExpertSystem.process_query and its branches), and the configuration
loader (load_config).  External collaborators (the embedding model, the
vector index client, and the language-generation model) are passed in as
explicit function parameters; Python exceptions are modelled with Except,
Python floats with exact rationals, and Python dicts with association lists.
-/

namespace AyurApp

/-- The ASCII apostrophe character, used inside string literals of the source. -/
def apos : String := String.singleton (Char.ofNat 39)

/-- Support email constant (src/app.py line 12). -/
def SUPPORT_EMAIL : String := "support@myayurhealth.com"

/-- Support phone constant (src/app.py line 13). -/
def SUPPORT_PHONE : String := "+1 (555) 123-4567"

/-- The contact block `Email: ...\nPhone: ...` that the source appends to
answers and embeds in every prompt. -/
def contactBlock : String := "Email: " ++ SUPPORT_EMAIL ++ "\nPhone: " ++ SUPPORT_PHONE

/-- Python's `str.lower()` restricted to the ASCII case mapping, character by
character (the keyword lists of the source are ASCII). -/
def strLower (s : String) : String := String.mk (s.data.map Char.toLower)

/-- `isPrefixL n h` : the character list `n` is a prefix of `h`. -/
def isPrefixL : List Char → List Char → Bool
  | [], _ => true
  | _ :: _, [] => false
  | a :: as, b :: bs => a == b && isPrefixL as bs

/-- `containsSub n h` : the character list `n` occurs as a contiguous substring
of `h`; this is Python's `n in h` on strings. -/
def containsSub (needle : List Char) : List Char → Bool
  | [] => isPrefixL needle []
  | c :: rest => isPrefixL needle (c :: rest) || containsSub needle rest

/-- `endsWithS suf s` : the string `s` ends with the string `suf`. -/
def endsWithS (suf s : String) : Bool := isPrefixL suf.data.reverse s.data.reverse

/-- A Python value stored in a payload metadata mapping: either a string or
some non-string value (modelled by an integer). -/
inductive PyValue where
  | str (s : String)
  | intVal (n : Int)
  deriving DecidableEq

/-- Python's `.lower()` called on a metadata value: succeeds on a string,
raises (AttributeError) on a non-string value. -/
def pyLower : PyValue → Except Unit String
  | .str s => .ok (strLower s)
  | .intVal _ => .error ()

/-- Lookup in an association-list dictionary of Python values (`dict.get`,
returning `none` when the key is absent). -/
def dictGetPV : List (String × PyValue) → String → Option PyValue
  | [], _ => none
  | kv :: rest, k => if kv.1 == k then some kv.2 else dictGetPV rest k

/-- A raw similarity-search hit as returned by the index client: the payload's
optional `text` entry, its optional `metadata` mapping, and the score. -/
structure Hit where
  textVal : Option String
  metadataVal : Option (List (String × PyValue))
  score : ℚ
  deriving DecidableEq

/-- `DocumentResponse` dataclass (src/app.py lines 15-20). -/
structure DocumentResponse where
  content : String
  confidence : ℚ
  metadata : List (String × PyValue)
  is_doctor_info : Bool
  deriving DecidableEq

/-- Mapping one search hit into a `DocumentResponse` (src/app.py lines 52-60):
`content = payload.get('text','')`, `confidence = float(score)`,
`metadata = payload.get('metadata',{})`, and `is_doctor_info` tests whether
`'doctor'` occurs in `metadata.get('type','').lower()`.  Calling `.lower()`
on a non-string `type` value raises, which `Except.error` models. -/
def mkDoc (h : Hit) : Except Unit DocumentResponse :=
  match pyLower ((dictGetPV (h.metadataVal.getD []) "type").getD (PyValue.str "")) with
  | .error e => .error e
  | .ok t =>
    .ok { content := h.textVal.getD ""
          confidence := h.score
          metadata := h.metadataVal.getD []
          is_doctor_info := containsSub "doctor".data t.data }

/-- Left-to-right effectful map over a list, aborting at the first error:
this is a Python list comprehension in which the element expression may
raise. -/
def mapHits {α β : Type} (f : α → Except Unit β) : List α → Except Unit (List β)
  | [] => .ok []
  | x :: xs =>
    match f x with
    | .error e => .error e
    | .ok y =>
      match mapHits f xs with
      | .error e => .error e
      | .ok ys => .ok (y :: ys)

/-- The index client capability: collection name, query vector, limit. -/
def ClientFun : Type := String → List ℚ → Nat → Except Unit (List Hit)

/-- The embedding capability (`model.encode(query).tolist()`). -/
def EncoderFun : Type := String → Except Unit (List ℚ)

/-- `VectorDBService` (src/app.py lines 22-67): `client` and `model` are
`none` exactly when initialization failed and latched the gateway disabled. -/
structure VectorDBService where
  client : Option ClientFun
  model : Option EncoderFun
  collection_name : String

/-- `VectorDBService.__init__` (src/app.py lines 23-38): building the client
or the embedding model may raise; on any failure both fields are latched to
`none` (and `collection_name` is never assigned, modelled by `""`). -/
def VectorDBService.init (mkClient : Except Unit ClientFun) (mkModel : Except Unit EncoderFun) :
    VectorDBService :=
  match mkClient with
  | .error _ => { client := none, model := none, collection_name := "" }
  | .ok c =>
    match mkModel with
    | .error _ => { client := none, model := none, collection_name := "" }
    | .ok m => { client := some c, model := some m, collection_name := "myayurhealth_docs" }

/-- The `try` block of `VectorDBService.search` together with its `except`
handler (src/app.py lines 44-67): encode the query, issue the index query,
map every hit; any raised exception is caught and yields `[]`. -/
def searchResults (c : ClientFun) (m : EncoderFun) (coll query : String) (limit : Nat) :
    List DocumentResponse :=
  match m query with
  | .error _ => []
  | .ok vec =>
    match c coll vec limit with
    | .error _ => []
    | .ok hits =>
      match mapHits mkDoc hits with
      | .error _ => []
      | .ok docs => docs

/-- `VectorDBService.search` (src/app.py lines 40-67).  The method assigns no
field of `self`, so the post-state returned in the second component is the
receiver itself.  A disabled gateway short-circuits to `[]` (src/app.py
lines 41-42); otherwise the guarded body `searchResults` runs.  In the source
`limit` defaults to 5 and every caller uses the default. -/
def VectorDBService.search (svc : VectorDBService) (query : String) (limit : Nat) :
    List DocumentResponse × VectorDBService :=
  match svc.client, svc.model with
  | some c, some m => (searchResults c m svc.collection_name query limit, svc)
  | _, _ => ([], svc)

/-- The three routing outcomes of `process_query` (spec name: Intent). -/
inductive Intent where
  | PractitionerLookup
  | ConditionTreatment
  | General
  deriving DecidableEq

/-- Practitioner keywords of `process_query` (src/app.py line 160). -/
def practitionerKeywords : List String := ["doctor", "practitioner", "physician", "vaidya"]

/-- Condition/treatment keywords of `process_query` (src/app.py line 164). -/
def conditionKeywords : List String :=
  ["treat", "cure", "healing", "medicine", "therapy", "disease", "condition", "problem", "pain"]

/-- The keyword routing of `process_query` (src/app.py lines 160-165):
`any(keyword in query.lower() for keyword in ...)`, practitioner keywords
checked first, then condition keywords, otherwise general. -/
def classify (query : String) : Intent :=
  if practitionerKeywords.any (fun k => containsSub k.data (strLower query).data) then
    Intent.PractitionerLookup
  else if conditionKeywords.any (fun k => containsSub k.data (strLower query).data) then
    Intent.ConditionTreatment
  else
    Intent.General

/-- `"\n".join([doc.content for doc in docs])`. -/
def joinContents (docs : List DocumentResponse) : String :=
  String.intercalate "\n" (docs.map (fun d => d.content))

/-- The fixed apology answer of the practitioner branch
(src/app.py lines 92-94). -/
def apologyText : String :=
  "I apologize, but I couldn" ++ apos ++
  "t find any doctors matching your query in our platform. " ++
  "Please try a different search or contact our support team for assistance:\n" ++
  "Email: " ++ SUPPORT_EMAIL ++ "\nPhone: " ++ SUPPORT_PHONE

/-- The generation prompt of the practitioner branch (src/app.py lines 97-107). -/
def doctorPrompt (context : String) : String :=
  "\n        Based on the following doctor information from our platform, provide a clear response:\n        "
  ++ context ++
  "\n        \n        Format the response to clearly list each available doctor with their specializations and qualifications.\n        \n        End the response with:\n        For appointments and inquiries, please contact our support team:\n        Email: "
  ++ SUPPORT_EMAIL ++ "\n        Phone: " ++ SUPPORT_PHONE ++ "\n        "

/-- The no-results generation prompt of the health branch (src/app.py lines 123-134). -/
def healthFallbackPrompt (query : String) : String :=
  "\n            Provide information about how Ayurveda approaches treating "
  ++ query ++
  ". \n            Include:\n            1. The Ayurvedic perspective on this condition\n            2. General treatment principles\n            3. Note that this is general information and specific treatment should be discussed with an Ayurvedic practitioner\n            \n            End with:\n            For personalized consultation and treatment, please contact our support team:\n            Email: "
  ++ SUPPORT_EMAIL ++ "\n            Phone: " ++ SUPPORT_PHONE ++ "\n            "

/-- The with-results generation prompt of the health branch (src/app.py lines 139-154). -/
def healthPrompt (query context : String) : String :=
  "\n        Based on the following information from our platform, provide a comprehensive response about "
  ++ query ++ ":\n        " ++ context ++
  "\n        \n        Include:\n        1. The Ayurvedic approach to treating this condition\n        2. Specific treatments or therapies mentioned in our documentation\n        3. Available doctors who specialize in treating this condition\n        \n        Only mention doctors explicitly listed in the provided information.\n        \n        End with:\n        For appointments and detailed treatment plans, please contact our support team:\n        Email: "
  ++ SUPPORT_EMAIL ++ "\n        Phone: " ++ SUPPORT_PHONE ++ "\n        "

/-- The no-results generation prompt of the general branch (src/app.py lines 170-177). -/
def generalFallbackPrompt (query : String) : String :=
  "\n            Provide accurate general information about " ++ query ++
  " from an Ayurvedic perspective.\n            Note that this is general knowledge and specific health advice should be sought from qualified practitioners.\n            \n            For personalized consultation and advice, please contact our support team:\n            Email: "
  ++ SUPPORT_EMAIL ++ "\n            Phone: " ++ SUPPORT_PHONE ++ "\n            "

/-- The with-results generation prompt of the general branch (src/app.py lines 181-191). -/
def generalPrompt (query context : String) : String :=
  "\n        Based on the following information from our documentation, provide a response about "
  ++ query ++ ":\n        " ++ context ++
  "\n        \n        Ensure the response is accurate and based only on the provided information.\n        \n        End with:\n        For more information and personalized guidance, please contact our support team:\n        Email: "
  ++ SUPPORT_EMAIL ++ "\n        Phone: " ++ SUPPORT_PHONE ++ "\n        "

/-- `AyurvedaExpertSystem` (src/app.py lines 69-85): the retrieval gateway
plus the generation capability `model.run(prompt).content`, modelled as an
opaque total function from prompt to generated text. -/
structure AyurvedaExpertSystem where
  vector_db : VectorDBService
  model : String → String

/-- `process_doctor_query` (src/app.py lines 87-109).  Search with the default
limit 5, filter to doctor documents; if none, return the fixed apology with no
generation call, else return the generation output on the doctor prompt
together with the filtered documents. -/
def AyurvedaExpertSystem.process_doctor_query (sys : AyurvedaExpertSystem) (query : String) :
    String × List DocumentResponse :=
  let docs := (sys.vector_db.search query 5).1
  let doctor_docs := docs.filter (fun d => d.is_doctor_info)
  if doctor_docs.isEmpty then
    (apologyText, [])
  else
    (sys.model (doctorPrompt (joinContents doctor_docs)), doctor_docs)

/-- `process_health_query` (src/app.py lines 111-156).  Two searches with the
default limit 5: the condition search, and a doctor search on
`"doctor treating " ++ query` filtered to doctor documents; the merged list is
their concatenation in that order.  Empty merge falls back to a generation
call with no supporting documents. -/
def AyurvedaExpertSystem.process_health_query (sys : AyurvedaExpertSystem) (query : String) :
    String × List DocumentResponse :=
  let condition_docs := (sys.vector_db.search query 5).1
  let doctor_docs := ((sys.vector_db.search ("doctor treating " ++ query) 5).1).filter
    (fun d => d.is_doctor_info)
  let all_docs := condition_docs ++ doctor_docs
  if all_docs.isEmpty then
    (sys.model (healthFallbackPrompt query), [])
  else
    (sys.model (healthPrompt query (joinContents all_docs)), all_docs)

/-- `process_query` (src/app.py lines 158-193): route by `classify`; the
general branch searches with the default limit 5 and falls back to a
generation call when nothing was retrieved. -/
def AyurvedaExpertSystem.process_query (sys : AyurvedaExpertSystem) (query : String) :
    String × List DocumentResponse :=
  match classify query with
  | Intent.PractitionerLookup => sys.process_doctor_query query
  | Intent.ConditionTreatment => sys.process_health_query query
  | Intent.General =>
    let docs := (sys.vector_db.search query 5).1
    if docs.isEmpty then
      (sys.model (generalFallbackPrompt query), [])
    else
      (sys.model (generalPrompt query (joinContents docs)), docs)

/-- Lookup in an association-list dictionary of strings. -/
def dictGet : List (String × String) → String → Option String
  | [], _ => none
  | kv :: rest, k => if kv.1 == k then some kv.2 else dictGet rest k

/-- Python `dict[k] = v`: replace the value at the first occurrence of the
key, else append the new binding at the end. -/
def dictSet : List (String × String) → String → String → List (String × String)
  | [], k, v => [(k, v)]
  | kv :: rest, k, v =>
    if kv.1 == k then (kv.1, v) :: rest else kv :: dictSet rest k v

/-- Python `dict.update(u)`: set every binding of `u` in order. -/
def dictUpdate (d u : List (String × String)) : List (String × String) :=
  u.foldl (fun acc kv => dictSet acc kv.1 kv.2) d

/-- The environment-override loop of `load_config` (src/app.py lines 211-214):
for each key already in the config, a set and non-empty (truthy) environment
value replaces the stored value. -/
def applyEnv (env : String → Option String) (config : List (String × String)) :
    List (String × String) :=
  config.map (fun kv =>
    match env kv.1 with
    | some v => if v == "" then kv else (kv.1, v)
    | none => kv)

/-- `load_config` (src/app.py lines 195-216).  Defaults first; then, when the
`secrets.toml` file exists (`file = some entries`), `dict.update` with its
entries (a missing file only logs a warning); finally the environment loop.
The file contents and the environment are the external collaborators, passed
as parameters. -/
def load_config (file : Option (List (String × String))) (env : String → Option String) :
    List (String × String) :=
  let config := [("QDRANT_URL", "http://localhost:6333"), ("QDRANT_API_KEY", "")]
  let config :=
    match file with
    | some tomlConfig => dictUpdate config tomlConfig
    | none => config
  applyEnv env config

/-- The key of a config entry is unchanged by the environment loop; the value
is replaced exactly when the environment holds a non-empty value for the key.
This resolution function states the env-over-stored-value rule used by the
amended C5 claim. -/
def envResolve (env : String → Option String) (k v : String) : String :=
  match env k with
  | some e => if e == "" then v else e
  | none => v

/-- The value of the last binding of a key in an entry list (later `dict`
updates override earlier ones). -/
def lookupLast : List (String × String) → String → Option String
  | [], _ => none
  | kv :: rest, k =>
    match lookupLast rest k with
    | some w => some w
    | none => if kv.1 = k then some kv.2 else none

/-- Resolution order stated by the amended C5 claim: a set, non-empty
environment variable wins; otherwise the last file binding of the key;
otherwise the built-in default. -/
def resolvedValue (file : Option (List (String × String))) (env : String → Option String)
    (k dflt : String) : String :=
  envResolve env k ((file.bind (fun u => lookupLast u k)).getD dflt)

/-- The index-client contract assumed by C9: an `ok` result never holds more
hits than the requested limit. -/
def ClientHonorsLimit (svc : VectorDBService) : Prop :=
  ∀ c, svc.client = some c →
    ∀ coll v n hits, c coll v n = Except.ok hits → hits.length ≤ n

/-- Decidable check that a document's confidence lies in the closed unit
interval claimed by C8. -/
def confidenceInUnit (d : DocumentResponse) : Bool :=
  decide (0 ≤ d.confidence ∧ d.confidence ≤ 1)

/-! Concrete collaborators and services used by witnesses and
counterexamples. -/

/-- An embedding capability that always raises. -/
def encFail : EncoderFun := fun _ => Except.error ()

/-- An embedding capability that returns a fixed vector. -/
def encOk : EncoderFun := fun _ => Except.ok [0]

/-- An index client that returns no hits. -/
def clientEmpty : ClientFun := fun _ _ _ => Except.ok []

/-- A well-formed doctor hit. -/
def goodHit : Hit :=
  { textVal := some "Dr. Sharma, Ayurvedic neurologist"
    metadataVal := some [("type", PyValue.str "Ayurvedic Doctor")]
    score := 9/10 }

/-- A well-formed non-doctor hit. -/
def herbHit : Hit :=
  { textVal := some "Turmeric reduces inflammation"
    metadataVal := some [("type", PyValue.str "Herb")]
    score := 4/5 }

/-- A hit whose metadata `type` value is a number, so lower-casing it raises. -/
def badHit : Hit :=
  { textVal := some "broken entry"
    metadataVal := some [("type", PyValue.intVal 42)]
    score := 1/2 }

/-- A hit whose similarity score lies outside the unit interval. -/
def hitBadScore : Hit :=
  { textVal := some "entry"
    metadataVal := some [("type", PyValue.str "herb")]
    score := 2 }

/-- The document that `mkDoc` builds from `goodHit`. -/
def goodDoc : DocumentResponse :=
  { content := "Dr. Sharma, Ayurvedic neurologist"
    confidence := 9/10
    metadata := [("type", PyValue.str "Ayurvedic Doctor")]
    is_doctor_info := true }

/-- An index client that returns a well-formed hit followed by a hit whose
mapping raises. -/
def clientMixed : ClientFun := fun _ _ _ => Except.ok [goodHit, badHit]

/-- Demo corpus for the limit-honoring client. -/
def demoHits : List Hit := [goodHit, herbHit]

/-- An index client that honors the limit: it returns at most `n` hits. -/
def clientDemo : ClientFun := fun _ _ n => Except.ok (demoHits.take n)

/-- A gateway latched disabled by a failed initialization. -/
def disabledSvc : VectorDBService := { client := none, model := none, collection_name := "" }

/-- An enabled gateway over the demo corpus. -/
def svcDemo : VectorDBService :=
  { client := some clientDemo, model := some encOk, collection_name := "myayurhealth_docs" }

/-- An expert system whose gateway is disabled. -/
def sysDisabled : AyurvedaExpertSystem :=
  { vector_db := disabledSvc, model := fun _ => "GENERATED" }

/-- An expert system over the demo corpus. -/
def sysDemo : AyurvedaExpertSystem :=
  { vector_db := svcDemo, model := fun _ => "GENERATED ANSWER" }

/-- A generation capability that always ends its output with the contact
block (here: it returns exactly the contact block). -/
def genCompliant : String → String := fun _ => contactBlock

/-- An expert system whose generation capability is footer-compliant. -/
def sysCompliant : AyurvedaExpertSystem := { vector_db := disabledSvc, model := genCompliant }

/-- An expert system whose generation capability returns empty text. -/
def sysNoFooter : AyurvedaExpertSystem := { vector_db := disabledSvc, model := fun _ => "" }

/-- A configuration file that sets the index endpoint. -/
def fileOnlyUrl : List (String × String) := [("QDRANT_URL", "http://file-config:6333")]

/-- An environment that also sets the index endpoint, non-empty. -/
def envWithUrl : String → Option String :=
  fun k => if k == "QDRANT_URL" then some "http://env-config:6333" else none

/-! Helper lemmas about substring search. -/

/-- A list is a prefix of itself followed by anything. -/
theorem isPrefixL_self_append (n rest : List Char) : isPrefixL n (n ++ rest) = true := by
  induction n with
  | nil => rfl
  | cons a as ih => simp [isPrefixL, ih]

/-- A prefix occurrence is a substring occurrence. -/
theorem containsSub_of_isPrefixL {n h : List Char} (hp : isPrefixL n h = true) :
    containsSub n h = true := by
  cases h with
  | nil => simpa [containsSub] using hp
  | cons c rest => simp [containsSub, hp]

/-- Any explicit decomposition exhibits a substring occurrence. -/
theorem containsSub_decomp (n pre post : List Char) :
    containsSub n (pre ++ n ++ post) = true := by
  induction pre with
  | nil => simpa using containsSub_of_isPrefixL (isPrefixL_self_append n post)
  | cons c cs ih =>
    have ih2 : containsSub n (cs ++ (n ++ post)) = true := by
      simpa [List.append_assoc] using ih
    simp [containsSub, ih2]

/-- C2: any query that contains one of the practitioner keywords
`doctor, practitioner, physician, vaidya` as a substring in any letter case is
routed to the practitioner intent by `classify`, regardless of which other
keywords (such as `treat` or `pain`) the query also contains, because the
practitioner check is performed first. -/
theorem classify_practitioner_priority (q k : String) (hk : k ∈ practitionerKeywords)
    (pre s post : List Char) (hq : q.data = pre ++ s ++ post)
    (hs : s.map Char.toLower = k.data) :
    classify q = Intent.PractitionerLookup := by
  have hdata : (strLower q).data
      = pre.map Char.toLower ++ k.data ++ post.map Char.toLower := by
    simp [strLower, hq, List.map_append, hs]
  have hany : practitionerKeywords.any
      (fun kw => containsSub kw.data (strLower q).data) = true := by
    refine List.any_eq_true.mpr ⟨k, hk, ?_⟩
    rw [hdata]
    exact containsSub_decomp _ _ _
  simp [classify, hany]

/-- C2 witness: a query containing `DOCTOR` (upper case) as well as the
condition keywords `treat` and `pain` is routed to the practitioner intent. -/
theorem classify_practitioner_priority_witness :
    classify "Which DOCTOR can treat my pain" = Intent.PractitionerLookup :=
  classify_practitioner_priority "Which DOCTOR can treat my pain" "doctor"
    (by decide)
    "Which ".data "DOCTOR".data " can treat my pain".data
    (by decide) (by decide)

/-! Helper lemmas about the retrieval gateway. -/

/-- Unfolding equation of `search` on an enabled gateway. -/
theorem search_eq_of_enabled (oc : ClientFun) (om : EncoderFun) (coll query : String)
    (limit : Nat) :
    (VectorDBService.mk (some oc) (some om) coll).search query limit
      = (searchResults oc om coll query limit, VectorDBService.mk (some oc) (some om) coll) := rfl

/-- C3: a gateway whose initialization failed (client or embedding model
construction raised, latching both fields to none) returns the empty result
list from every subsequent `search` call, for every query and limit, without
raising and with the latched state unchanged (initialization is never
retried). -/
theorem search_disabled_after_init_failure
    (mkClient : Except Unit ClientFun) (mkModel : Except Unit EncoderFun)
    (hfail : mkClient = Except.error () ∨ mkModel = Except.error ())
    (query : String) (limit : Nat) :
    (VectorDBService.init mkClient mkModel).search query limit
      = ([], VectorDBService.init mkClient mkModel) := by
  rcases hfail with h | h
  · subst h; rfl
  · subst h
    cases mkClient with
    | error e => rfl
    | ok c => rfl

/-- C3 witness: a concretely failed initialization yields empty search
results at a concrete query and limit. -/
theorem search_disabled_after_init_failure_witness :
    (VectorDBService.init (Except.error ()) (Except.error ())).search "any query" 7
      = ([], VectorDBService.init (Except.error ()) (Except.error ())) :=
  search_disabled_after_init_failure (Except.error ()) (Except.error ())
    (Or.inl rfl) "any query" 7

/-- C7: on an enabled gateway, a per-call failure of the embedding step or of
the index query is caught inside `search`, which returns the empty list for
that call; the gateway state (client and model fields) is unchanged, so it
remains enabled for future calls. -/
theorem search_percall_failure_empty_state_unchanged (c : ClientFun) (m : EncoderFun)
    (coll query : String) (limit : Nat)
    (hfail : m query = Except.error ()
      ∨ ∃ v, m query = Except.ok v ∧ c coll v limit = Except.error ()) :
    (VectorDBService.mk (some c) (some m) coll).search query limit
      = ([], VectorDBService.mk (some c) (some m) coll) := by
  have hres : searchResults c m coll query limit = [] := by
    unfold searchResults
    rcases hfail with h | ⟨v, hv, hq⟩
    · simp only [h]
    · simp only [hv, hq]
  rw [search_eq_of_enabled, hres]

/-- C7 witness: an enabled gateway whose embedding capability raises returns
empty results at a concrete query while keeping its fields. -/
theorem search_percall_failure_empty_state_unchanged_witness :
    (VectorDBService.mk (some clientEmpty) (some encFail) "myayurhealth_docs").search
        "back pain" 5
      = ([], VectorDBService.mk (some clientEmpty) (some encFail) "myayurhealth_docs") :=
  search_percall_failure_empty_state_unchanged clientEmpty encFail "myayurhealth_docs"
    "back pain" 5 (Or.inl rfl)

/-- If some element of the list fails, the whole effectful map fails. -/
theorem mapHits_error_of_mem {α β : Type} (f : α → Except Unit β) {x : α} {xs : List α}
    (hmem : x ∈ xs) (hx : f x = Except.error ()) :
    mapHits f xs = Except.error () := by
  induction xs with
  | nil => cases hmem
  | cons a t ih =>
    rcases List.mem_cons.mp hmem with h | h
    · subst h
      simp [mapHits, hx]
    · cases hfa : f a with
      | error e => cases e; simp [mapHits, hfa]
      | ok y => simp [mapHits, hfa, ih h]

/-- C10: on an enabled gateway, when the index query succeeds but mapping any
single hit into a document raises (here: its metadata `type` value is not a
string), `search` returns the empty list: every hit of the call is discarded
and no partial result survives; the gateway state is unchanged. -/
theorem search_discards_all_on_bad_hit (c : ClientFun) (m : EncoderFun)
    (coll query : String) (limit : Nat) (v : List ℚ) (hits : List Hit) (h : Hit)
    (henc : m query = Except.ok v) (hq : c coll v limit = Except.ok hits)
    (hmem : h ∈ hits) (hbad : mkDoc h = Except.error ()) :
    (VectorDBService.mk (some c) (some m) coll).search query limit
      = ([], VectorDBService.mk (some c) (some m) coll) := by
  have hres : searchResults c m coll query limit = [] := by
    unfold searchResults
    simp only [henc, hq, mapHits_error_of_mem mkDoc hmem hbad]
  rw [search_eq_of_enabled, hres]

/-- C10 witness: a result list holding a well-formed doctor hit followed by a
hit whose metadata `type` is the number 42 is discarded whole. -/
theorem search_discards_all_on_bad_hit_witness :
    (VectorDBService.mk (some clientMixed) (some encOk) "myayurhealth_docs").search "vata" 5
      = ([], VectorDBService.mk (some clientMixed) (some encOk) "myayurhealth_docs") :=
  search_discards_all_on_bad_hit clientMixed encOk "myayurhealth_docs" "vata" 5 [0]
    [goodHit, badHit] badHit rfl rfl
    (List.mem_cons_of_mem _ (List.mem_cons_self _ _)) rfl

/-- C6: when the retrieved results of a practitioner query contain no doctor
document, `process_doctor_query` returns the fixed apology-plus-contact text
and an empty supporting-document list; the result is the same for every
generation collaborator `sys.model`, so no generation output reaches it. -/
theorem doctor_query_no_results_fixed_answer (sys : AyurvedaExpertSystem) (query : String)
    (hempty : ((sys.vector_db.search query 5).1.filter (fun d => d.is_doctor_info)) = []) :
    sys.process_doctor_query query = (apologyText, []) := by
  simp [AyurvedaExpertSystem.process_doctor_query, hempty]

/-- C6 witness: a disabled gateway retrieves nothing, so the practitioner
branch produces the apology answer whatever the generation capability is. -/
theorem doctor_query_no_results_fixed_answer_witness :
    sysDisabled.process_doctor_query "doctor for migraines" = (apologyText, []) :=
  doctor_query_no_results_fixed_answer sysDisabled "doctor for migraines" rfl

/-- The supporting documents of the health branch are always the condition
search results followed by the filtered doctor search results. -/
theorem health_snd_eq (sys : AyurvedaExpertSystem) (query : String) :
    (sys.process_health_query query).2
      = (sys.vector_db.search query 5).1
        ++ ((sys.vector_db.search ("doctor treating " ++ query) 5).1.filter
              (fun d => d.is_doctor_info)) := by
  simp only [AyurvedaExpertSystem.process_health_query]
  cases hA : (sys.vector_db.search query 5).1
      ++ ((sys.vector_db.search ("doctor treating " ++ query) 5).1.filter
            (fun d => d.is_doctor_info)) with
  | nil => simp [hA]
  | cons d l => simp [hA]

/-- C4: for every query routed to the condition/treatment intent, the
supporting documents of the answer are exactly the unmodified condition
search results followed by the doctor search results filtered to doctor
documents, concatenated in that order with no de-duplication or
re-ranking. -/
theorem health_docs_concatenation (sys : AyurvedaExpertSystem) (query : String)
    (hintent : classify query = Intent.ConditionTreatment) :
    (sys.process_query query).2
      = (sys.vector_db.search query 5).1
        ++ ((sys.vector_db.search ("doctor treating " ++ query) 5).1.filter
              (fun d => d.is_doctor_info)) := by
  have hroute : (sys.process_query query).2 = (sys.process_health_query query).2 := by
    unfold AyurvedaExpertSystem.process_query
    rw [hintent]
  rw [hroute, health_snd_eq]

/-- C4 witness: on the demo corpus the condition query retrieves the doctor
and the herb document, and the doctor search appends the doctor document
again — duplicates included, condition documents first. -/
theorem health_docs_concatenation_witness :
    (sysDemo.process_query "how to treat insomnia").2
      = (sysDemo.vector_db.search "how to treat insomnia" 5).1
        ++ ((sysDemo.vector_db.search ("doctor treating " ++ "how to treat insomnia") 5).1.filter
              (fun d => d.is_doctor_info)) :=
  health_docs_concatenation sysDemo "how to treat insomnia" (by decide)

/-- C8 amended: the confidence of a document built by the gateway equals the
hit's similarity score unchanged — the gateway performs no clamping — so the
confidence lies in the unit interval whenever the back-end's score does. -/
theorem mkDoc_confidence_eq_score (h : Hit) (d : DocumentResponse)
    (hok : mkDoc h = Except.ok d) :
    d.confidence = h.score
      ∧ (0 ≤ h.score → h.score ≤ 1 → 0 ≤ d.confidence ∧ d.confidence ≤ 1) := by
  unfold mkDoc at hok
  cases hp : pyLower ((dictGetPV (h.metadataVal.getD []) "type").getD (PyValue.str "")) with
  | error e =>
    rw [hp] at hok
    exact Except.noConfusion hok
  | ok t =>
    rw [hp] at hok
    injection hok with h2
    subst h2
    exact ⟨rfl, fun ha hb => ⟨ha, hb⟩⟩

/-- C8 amended witness: the document built from the demo doctor hit carries
its score 9/10, which lies in the unit interval. -/
theorem mkDoc_confidence_eq_score_witness :
    goodDoc.confidence = goodHit.score
      ∧ (0 ≤ goodHit.score → goodHit.score ≤ 1
          → 0 ≤ goodDoc.confidence ∧ goodDoc.confidence ≤ 1) :=
  mkDoc_confidence_eq_score goodHit goodDoc rfl

/-- C8 counterexample: a hit whose back-end score is 2 produces a document
whose confidence is 2, outside the closed unit interval, refuting the claim
that every constructed document has confidence in the unit interval. -/
theorem confidence_not_in_unit_interval :
    (mkDoc hitBadScore).map (fun d => d.confidence) = Except.ok (2 : ℚ)
      ∧ (mkDoc hitBadScore).map confidenceInUnit = Except.ok false := by
  constructor
  · rfl
  · rfl

/-- C1 amended: the fixed apology branch ends with the literal contact block
unconditionally; every other branch (the generation-backed branches,
including the no-results fallbacks of the condition and general intents,
which also call generation) returns the generation output verbatim, so its
text ends with the contact block provided the generation capability always
returns text ending with the contact block, as every prompt instructs. -/
theorem every_branch_ends_with_contact_under_compliant_generation
    (sys : AyurvedaExpertSystem) (query : String)
    (hgen : ∀ p, endsWithS contactBlock (sys.model p) = true) :
    endsWithS contactBlock (sys.process_query query).1 = true := by
  unfold AyurvedaExpertSystem.process_query
  cases classify query with
  | PractitionerLookup =>
    simp only [AyurvedaExpertSystem.process_doctor_query]
    by_cases hfil :
        ((sys.vector_db.search query 5).1.filter (fun d => d.is_doctor_info)).isEmpty = true
    · rw [if_pos hfil]
      decide
    · rw [if_neg hfil]
      exact hgen _
  | ConditionTreatment =>
    simp only [AyurvedaExpertSystem.process_health_query]
    by_cases hA :
        ((sys.vector_db.search query 5).1
          ++ ((sys.vector_db.search ("doctor treating " ++ query) 5).1.filter
                (fun d => d.is_doctor_info))).isEmpty = true
    · rw [if_pos hA]
      exact hgen _
    · rw [if_neg hA]
      exact hgen _
  | General =>
    by_cases hE : ((sys.vector_db.search query 5).1).isEmpty = true
    · rw [if_pos hE]
      exact hgen _
    · rw [if_neg hE]
      exact hgen _

/-- C1 amended witness: with a footer-compliant generation capability every
branch ends with the contact block, here at a concrete general query. -/
theorem every_branch_ends_with_contact_witness :
    endsWithS contactBlock (sysCompliant.process_query "hello").1 = true :=
  every_branch_ends_with_contact_under_compliant_generation sysCompliant "hello"
    (fun _ => (by decide : endsWithS contactBlock contactBlock = true))

/-- C1 counterexample: a generation capability that returns empty text makes
the no-results fallback of the condition branch produce an answer that does
not end with the contact block, refuting the unconditional claim. -/
theorem answer_without_contact_footer :
    (sysNoFooter.process_query "how to treat insomnia").1 = ""
      ∧ endsWithS contactBlock (sysNoFooter.process_query "how to treat insomnia").1 = false := by
  constructor
  · rfl
  · decide

/-- The effectful map preserves the length when it succeeds. -/
theorem mapHits_length {α β : Type} (f : α → Except Unit β) :
    ∀ (xs : List α) (ys : List β), mapHits f xs = Except.ok ys → ys.length = xs.length := by
  intro xs
  induction xs with
  | nil =>
    intro ys hy
    simp only [mapHits] at hy
    injection hy with h2
    subst h2
    rfl
  | cons a t ih =>
    intro ys hy
    simp only [mapHits] at hy
    cases hfa : f a with
    | error e => rw [hfa] at hy; exact Except.noConfusion hy
    | ok y =>
      rw [hfa] at hy
      cases hmt : mapHits f t with
      | error e => rw [hmt] at hy; exact Except.noConfusion hy
      | ok ts =>
        rw [hmt] at hy
        injection hy with h2
        subst h2
        simp [ih ts hmt]

/-- A limit-honoring client bounds the guarded search body. -/
theorem searchResults_length_le (c : ClientFun) (m : EncoderFun) (coll query : String)
    (limit : Nat)
    (hc : ∀ coll2 v n hits, c coll2 v n = Except.ok hits → hits.length ≤ n) :
    (searchResults c m coll query limit).length ≤ limit := by
  unfold searchResults
  cases henc : m query with
  | error e => simp
  | ok v =>
    cases hq : c coll v limit with
    | error e => simp [hq]
    | ok hits =>
      cases hmap : mapHits mkDoc hits with
      | error e => simp [hq, hmap]
      | ok docs =>
        simp only [hq, hmap]
        calc docs.length = hits.length := mapHits_length mkDoc hits docs hmap
          _ ≤ limit := hc coll v limit hits hq

/-- A limit-honoring client bounds every `search` call. -/
theorem search_length_le (svc : VectorDBService) (query : String) (limit : Nat)
    (h : ClientHonorsLimit svc) : (svc.search query limit).1.length ≤ limit := by
  obtain ⟨oc, om, coll⟩ := svc
  cases oc with
  | none => simp [VectorDBService.search]
  | some c =>
    cases om with
    | none => simp [VectorDBService.search]
    | some m =>
      have hc : ∀ coll2 v n hits, c coll2 v n = Except.ok hits → hits.length ≤ n :=
        h c rfl
      simpa [VectorDBService.search] using searchResults_length_le c m coll query limit hc

/-- C9: every retrieval of the pipeline is issued with the default limit 5;
consequently, for an index client that honors the limit, the supporting
documents of any answer number at most 5 for the practitioner and general
intents and at most 10 (5 condition plus 5 doctor documents) for the
condition/treatment intent. -/
theorem supporting_docs_length_bound (sys : AyurvedaExpertSystem) (query : String)
    (h : ClientHonorsLimit sys.vector_db) :
    (sys.process_query query).2.length
      ≤ (if classify query = Intent.ConditionTreatment then 10 else 5) := by
  unfold AyurvedaExpertSystem.process_query
  cases hcl : classify query with
  | PractitionerLookup =>
    simp only [hcl]
    have hlen : ((sys.vector_db.search query 5).1.filter (fun d => d.is_doctor_info)).length ≤ 5 :=
      le_trans (List.length_filter_le _ _) (search_length_le sys.vector_db query 5 h)
    simp only [AyurvedaExpertSystem.process_doctor_query]
    by_cases hfil :
        ((sys.vector_db.search query 5).1.filter (fun d => d.is_doctor_info)).isEmpty = true
    · rw [if_pos hfil]
      simp
    · rw [if_neg hfil]
      simpa using hlen
  | ConditionTreatment =>
    simp only [hcl]
    have hc : ((sys.vector_db.search query 5).1).length ≤ 5 :=
      search_length_le sys.vector_db query 5 h
    have hd : ((sys.vector_db.search ("doctor treating " ++ query) 5).1.filter
        (fun d => d.is_doctor_info)).length ≤ 5 :=
      le_trans (List.length_filter_le _ _)
        (search_length_le sys.vector_db ("doctor treating " ++ query) 5 h)
    have hsnd := health_snd_eq sys query
    have : (sys.process_health_query query).2.length ≤ 10 := by
      rw [hsnd, List.length_append]
      omega
    simpa [AyurvedaExpertSystem.process_query, hcl] using this
  | General =>
    simp only [hcl]
    have hc : ((sys.vector_db.search query 5).1).length ≤ 5 :=
      search_length_le sys.vector_db query 5 h
    by_cases hE : ((sys.vector_db.search query 5).1).isEmpty = true
    · rw [if_pos hE]
      simp
    · rw [if_neg hE]
      simpa using hc

/-- C9 witness: the demo client honors its limit, and the practitioner query
retrieves at most 5 supporting documents. -/
theorem supporting_docs_length_bound_witness :
    (sysDemo.process_query "doctor for migraines").2.length
      ≤ (if classify "doctor for migraines" = Intent.ConditionTreatment then 10 else 5) :=
  supporting_docs_length_bound sysDemo "doctor for migraines" (by
    intro c hc coll v n hits hok
    have hc2 : clientDemo = c := by
      have : some clientDemo = some c := hc
      injection this
    subst hc2
    have : Except.ok (ε := Unit) (demoHits.take n) = Except.ok hits := hok
    injection this with h2
    subst h2
    rw [List.length_take]
    exact Nat.min_le_left _ _)

/-- Lookup after a single dictionary assignment. -/
theorem dictGet_dictSet (d : List (String × String)) (k v k2 : String) :
    dictGet (dictSet d k v) k2 = if k = k2 then some v else dictGet d k2 := by
  induction d with
  | nil =>
    by_cases h : k = k2
    · simp [dictSet, dictGet, h]
    · simp [dictSet, dictGet, h]
  | cons kv rest ih =>
    by_cases h1 : kv.1 = k
    · by_cases h2 : k = k2
      · simp [dictSet, dictGet, h1, h2]
      · have h3 : ¬ kv.1 = k2 := by rw [h1]; exact h2
        simp [dictSet, dictGet, h1, h2, h3]
    · by_cases h2 : kv.1 = k2
      · have h3 : ¬ k = k2 := by
          intro hk
          exact h1 (by rw [hk, h2])
        have h4 : ¬ k2 = k := fun hh => h3 hh.symm
        simp [dictSet, dictGet, h1, h2, h3, h4]
      · simp [dictSet, dictGet, h1, h2, ih]

/-- Lookup after a dictionary bulk update: the last binding of the key in the
update list wins, otherwise the original dictionary answers. -/
theorem dictGet_dictUpdate (u : List (String × String)) (d : List (String × String))
    (k : String) :
    dictGet (dictUpdate d u) k
      = match lookupLast u k with
        | some w => some w
        | none => dictGet d k := by
  induction u generalizing d with
  | nil => rfl
  | cons kv rest ih =>
    have hstep : dictUpdate d (kv :: rest) = dictUpdate (dictSet d kv.1 kv.2) rest := rfl
    rw [hstep, ih]
    cases hl : lookupLast rest k with
    | some w => simp [lookupLast, hl]
    | none =>
      by_cases hk : kv.1 = k
      · simp [lookupLast, hl, dictGet_dictSet, hk]
      · simp [lookupLast, hl, dictGet_dictSet, hk]

/-- Lookup after the environment-override loop. -/
theorem dictGet_applyEnv (env : String → Option String) (d : List (String × String))
    (k : String) :
    dictGet (applyEnv env d) k = (dictGet d k).map (fun v => envResolve env k v) := by
  induction d with
  | nil => rfl
  | cons kv rest ih =>
    have hstep : applyEnv env (kv :: rest)
        = (match env kv.1 with
           | some v => if v == "" then kv else (kv.1, v)
           | none => kv) :: applyEnv env rest := rfl
    rw [hstep]
    by_cases h : kv.1 = k
    · cases he : env kv.1 with
      | none =>
        have he2 : env k = none := by rw [← h]; exact he
        simp [dictGet, envResolve, h, he, he2]
      | some v =>
        have he2 : env k = some v := by rw [← h]; exact he
        by_cases hv : v = ""
        · simp [dictGet, envResolve, h, he, he2, hv]
        · simp [dictGet, envResolve, h, he, he2, hv]
    · cases he : env kv.1 with
      | none => simp [dictGet, h, he, ih]
      | some v =>
        by_cases hv : v = ""
        · simp [dictGet, h, he, hv, ih]
        · simp [dictGet, h, he, hv, ih]

/-- C5 amended: the configuration loader resolves the index endpoint and the
index credential with precedence: a set, non-empty environment variable
overrides the configuration file, which overrides the built-in default
(localhost endpoint, empty credential); an unset or empty environment
variable does not override, and a missing configuration file is non-fatal,
leaving defaults and environment in effect. -/
theorem load_config_precedence (file : Option (List (String × String)))
    (env : String → Option String) :
    dictGet (load_config file env) "QDRANT_URL"
        = some (resolvedValue file env "QDRANT_URL" "http://localhost:6333")
      ∧ dictGet (load_config file env) "QDRANT_API_KEY"
        = some (resolvedValue file env "QDRANT_API_KEY" "") := by
  cases file with
  | none =>
    have hrw : load_config none env
        = applyEnv env [("QDRANT_URL", "http://localhost:6333"), ("QDRANT_API_KEY", "")] := rfl
    constructor
    · rw [hrw, dictGet_applyEnv]
      simp [dictGet, resolvedValue]
    · rw [hrw, dictGet_applyEnv]
      simp [dictGet, resolvedValue]
  | some u =>
    constructor
    · rw [show load_config (some u) env
          = applyEnv env (dictUpdate
              [("QDRANT_URL", "http://localhost:6333"), ("QDRANT_API_KEY", "")] u) from rfl,
        dictGet_applyEnv, dictGet_dictUpdate]
      cases hl : lookupLast u "QDRANT_URL" with
      | some w => simp [resolvedValue, hl]
      | none => simp [resolvedValue, hl, dictGet]
    · rw [show load_config (some u) env
          = applyEnv env (dictUpdate
              [("QDRANT_URL", "http://localhost:6333"), ("QDRANT_API_KEY", "")] u) from rfl,
        dictGet_applyEnv, dictGet_dictUpdate]
      cases hl : lookupLast u "QDRANT_API_KEY" with
      | some w => simp [resolvedValue, hl]
      | none => simp [resolvedValue, hl, dictGet]

/-- C5 counterexample: when the configuration file sets the endpoint and a
non-empty environment variable also sets it, the loaded endpoint is the
environment value, not the file value — refuting the claimed
file-over-environment precedence. -/
theorem load_config_env_beats_file :
    dictGet (load_config (some fileOnlyUrl) envWithUrl) "QDRANT_URL"
        = some "http://env-config:6333"
      ∧ (dictGet (load_config (some fileOnlyUrl) envWithUrl) "QDRANT_URL"
          == some "http://file-config:6333") = false := by
  constructor
  · rfl
  · rfl

end AyurApp
